import Mathlib

/-!
Verification of the UDP haptics command server in `unified_haptics_api.py`
(with the module cleanups it calls in `haptics_gloves.py`,
`haptics_pattern_player.py` and `array_example.py`).

The embedding is shallow: Python dict parameters become association lists of
`PyVal` values, the mutable module-level registries become fields of
`ServerState`, socket sends and adapter invocations become elements of an
explicit `Action` trace, and a Python exception escaping a handler becomes
an `Except.error`. Points where the code calls into the external bHaptics
layer (whose outcome the server only observes as a boolean or an exception)
are threaded through as explicit boolean oracles.
-/

namespace UnifiedHapticsApi

/-- A Python value as it appears in the JSON command protocol.
`PyVal.none` is the Python value `None` (distinct from an absent key). -/
inductive PyVal where
  | none
  | bool (b : Bool)
  | int (n : Int)
  | str (s : String)
deriving DecidableEq, Repr

/-- A Python dict with string keys, as an association list (first binding of a
key is the live one; Python dicts keep keys unique). -/
abbrev PyDict := List (String × PyVal)

/-- Dict lookup, `d[k]` as an `Option`. -/
def lookupA {α : Type} : List (String × α) → String → Option α
  | [], _ => Option.none
  | (k0, v0) :: t, k => if k0 = k then some v0 else lookupA t k

/-- Dict update `d[k] = v`: replace the binding of `k` if present, else append. -/
def insertA {α : Type} : List (String × α) → String → α → List (String × α)
  | [], k, v => [(k, v)]
  | (k0, v0) :: t, k, v => if k0 = k then (k, v) :: t else (k0, v0) :: insertA t k v

/-- Dict removal `d.pop(k, None)`: drop every binding of `k`. -/
def eraseA {α : Type} : List (String × α) → String → List (String × α)
  | [], _ => []
  | (k0, v0) :: t, k => if k0 = k then eraseA t k else (k0, v0) :: eraseA t k

/-- Python `params.get(k, default)`. -/
def pyGetD (params : PyDict) (k : String) (d : PyVal) : PyVal :=
  (lookupA params k).getD d

/-- Python `params.get(k)` (absent key gives `None`). -/
def pyGet (params : PyDict) (k : String) : PyVal :=
  pyGetD params k PyVal.none

/-- Python truthiness of a value (`if v:`). -/
def truthy : PyVal → Bool
  | PyVal.none => false
  | PyVal.bool b => b
  | PyVal.int n => n != 0
  | PyVal.str s => !s.isEmpty

/-- Python `isinstance(v, int)`: in Python `bool` is a subclass of `int`,
so `True` and `False` pass this check. -/
def isInstInt : PyVal → Bool
  | PyVal.bool _ => true
  | PyVal.int _ => true
  | _ => false

/-- The integer value Python arithmetic and comparisons see (`True` is 1,
`False` is 0). Only meaningful on values passing `isInstInt`. -/
def asInt : PyVal → Int
  | PyVal.bool b => if b then 1 else 0
  | PyVal.int n => n
  | _ => 0

/-- Python `str(v)` as used by f-string interpolation. -/
def pyStr : PyVal → String
  | PyVal.none => "None"
  | PyVal.bool b => if b then "True" else "False"
  | PyVal.int n => toString n
  | PyVal.str s => s

/-- Python `s.lower()` (ASCII case mapping suffices for the identifiers the
server compares). -/
def pyLower (s : String) : String := String.mk (s.data.map Char.toLower)

/-- Python `s.capitalize()` on the short ASCII identifiers used here:
upper-case the first character. -/
def pyCapitalize (s : String) : String :=
  match s.data with
  | [] => ""
  | c :: cs => String.mk (Char.toUpper c :: cs)

/-- The source check `isinstance(v, int) and lo <= v <= hi` (the handlers
write it as a negated `or`, which short-circuits the same way). -/
def int_in_range (v : PyVal) (lo hi : Int) : Bool :=
  isInstInt v && decide (lo ≤ asInt v) && decide (asInt v ≤ hi)

/-- The source check `isinstance(v, int) and v > 0` for durations. -/
def pos_int (v : PyVal) : Bool :=
  isInstInt v && decide (0 < asInt v)

/-- A network address `(host, port)`. -/
abbrev Addr := String × Nat

/-- One entry of `active_command_ids`: client, command name, start time. -/
structure CorrEntry where
  clientId : String
  command : PyVal
  startTime : Nat
deriving DecidableEq, Repr

/-- A call from the server into the bHaptics layer (directly through
`better_haptic_player` or through the motor-control helper modules). -/
inductive AdapterCall where
  | motorControlDiscrete (panel motorIndex intensity durationMs : PyVal)
  | submitDot (frameKey : String) (position : String)
      (motorIndex intensity durationMs : PyVal)
  | destroy
deriving DecidableEq, Repr

/-- A UDP payload the server sends. -/
inductive Packet where
  | response (commandId : String) (result : PyDict)
  | errorResponse (commandId : String) (error : String)
  | event (eventType : String) (data : PyDict)
deriving DecidableEq, Repr

/-- One observable effect of a handler or of the shutdown path. -/
inductive Action where
  | send (addr : Addr) (p : Packet)
  | adapter (c : AdapterCall)
  | scheduleExit
deriving DecidableEq, Repr

/-- The module-level mutable state of `unified_haptics_api.py`, together with
the per-module `cleanup_done` flags of the helper modules its shutdown path
calls and the shared `player.ws` handle they null out. `destroyCount` counts
invocations of `player.destroy()` (Device Session Adapter release). -/
structure ServerState where
  running : Bool
  cleanupDone : Bool
  serverSocketOpen : Bool
  discoverySocketOpen : Bool
  clients : List (String × Addr)
  tracker : List (String × CorrEntry)
  eventHandlers : List (String × List String)
  hmcCleanupDone : Bool
  glovesCleanupDone : Bool
  arrayCleanupDone : Bool
  playerWsOpen : Bool
  destroyCount : Nat
deriving DecidableEq, Repr

/-- The state of a freshly started server process: the module globals of
`unified_haptics_api.py` (`running = True`, `cleanup_done = False`, empty
registries) together with the fresh per-module cleanup flags. -/
def freshState : ServerState where
  running := true
  cleanupDone := false
  serverSocketOpen := true
  discoverySocketOpen := true
  clients := []
  tracker := []
  eventHandlers := []
  hmcCleanupDone := false
  glovesCleanupDone := false
  arrayCleanupDone := false
  playerWsOpen := true
  destroyCount := 0

/-- `HapticsServer.send_response`: look the client up in `current_clients`;
if absent, log and return without sending and without touching the tracker.
Otherwise send the response packet and pop the command from
`active_command_ids`. `sendOk` is false when `sendto` raises (the exception
is caught, so the pop is skipped and nothing is sent). -/
def send_response (sendOk : Bool) (s : ServerState) (result : PyDict)
    (clientId commandId : String) : ServerState × List Action :=
  match lookupA s.clients clientId with
  | Option.none => (s, [])
  | some addr =>
      if sendOk then
        ({ s with tracker := eraseA s.tracker commandId },
         [Action.send addr (Packet.response commandId result)])
      else (s, [])

/-- `HapticsServer.send_error_response`: same shape as `send_response` with
an error packet. -/
def send_error_response (sendOk : Bool) (s : ServerState) (error : String)
    (clientId commandId : String) : ServerState × List Action :=
  match lookupA s.clients clientId with
  | Option.none => (s, [])
  | some addr =>
      if sendOk then
        ({ s with tracker := eraseA s.tracker commandId },
         [Action.send addr (Packet.errorResponse commandId error)])
      else (s, [])

/-- `HapticsServer.handle_ping`: always a success dict echoing `message`. -/
def handle_ping (params : PyDict) (now : Nat) : PyDict :=
  [("success", PyVal.bool true), ("message", PyVal.str "Pong"),
   ("timestamp", PyVal.int now),
   ("echo", pyGetD params "message" (PyVal.str ""))]

/-- `HapticsServer.process_command` specialised to a successfully decoded
`ping` command: register the client in `current_clients` only when its id is
not already known, insert the correlation entry into `active_command_ids`,
run the handler, and send the response. -/
def process_ping_command (sendOk : Bool) (s : ServerState) (addr : Addr)
    (params : PyDict) (commandId clientId : String) (now : Nat) :
    ServerState × List Action :=
  let s1 := if (lookupA s.clients clientId).isSome then s
            else { s with clients := s.clients ++ [(clientId, addr)] }
  let s2 := { s1 with
    tracker := insertA s1.tracker commandId ⟨clientId, PyVal.str "ping", now⟩ }
  send_response sendOk s2 (handle_ping params now) clientId commandId

/-- A Python exception escaping a handler. -/
inductive PyError where
  | nameError (name : String)
deriving DecidableEq, Repr

/-- `HapticsServer.handle_register_event_callback`, embedded exactly as the
source reads at lines 643-678: after the `if not event_type:` guard (whose
return dict carries the message "Intensity must be an integer between 0 and
100") the next executed statement is `if not isinstance(duration_ms, int)`,
where `duration_ms` is never assigned in this function, so evaluating it
raises `NameError`. The subscription registry is never touched. -/
def handle_register_event_callback (params : PyDict) :
    Except PyError PyDict :=
  let event_type := pyGet params "event_type"
  if truthy event_type = false then
    Except.ok [("success", PyVal.bool false),
               ("error", PyVal.str "Intensity must be an integer between 0 and 100")]
  else
    Except.error (PyError.nameError "duration_ms")

/-- The `{"success": False, "error": msg}` dict the validation paths return. -/
def err_dict (msg : String) : PyDict :=
  [("success", PyVal.bool false), ("error", PyVal.str msg)]

/-- Modelled from the spec: `haptics_motor_control.activate_discrete`
(imported as `hmc_activate_discrete`) is not under `src/`; the spec treats
it as the motor-control boundary that submits one discrete vest-motor frame
and reports success as a boolean. The invocation itself is the observable
adapter call; `ok` is the boolean the server sees come back. -/
def hmc_activate_discrete (ok : Bool) (panel motorIndex intensity durationMs : PyVal) :
    List AdapterCall × Bool :=
  ([AdapterCall.motorControlDiscrete panel motorIndex intensity durationMs], ok)

/-- `haptics_gloves.activate_glove_motor` (src/haptics_gloves.py lines
95-143): validate glove / index / intensity / duration, then build the frame
name with f-string interpolation and call `player.submit_dot`; exceptions
from the submit are caught and turn the result into `False` (`subOk`). The
numeric comparisons go through `asInt` because the unified-API handler has
already established the arguments are Python ints or bools. -/
def activate_glove_motor (subOk : Bool) (glove : String)
    (motorIndex intensity durationMs : PyVal) : List AdapterCall × Bool :=
  if ¬ (pyLower glove = "left" ∨ pyLower glove = "right") then ([], false)
  else if ¬ (0 ≤ asInt motorIndex ∧ asInt motorIndex ≤ 5) then ([], false)
  else if ¬ (0 ≤ asInt intensity ∧ asInt intensity ≤ 100) then ([], false)
  else if ¬ (0 < asInt durationMs) then ([], false)
  else
    let glovePosition := if pyLower glove = "left" then "GloveL" else "GloveR"
    let frameName := "glove" ++ pyCapitalize glove ++ "Frame_motor_" ++ pyStr motorIndex
    ([AdapterCall.submitDot frameName glovePosition motorIndex intensity durationMs],
     subOk)

/-- `HapticsServer.handle_activate_discrete` (lines 1357-1414): validate
panel, motor index (integer 0-19), intensity (integer 0-100) and duration
(positive integer) in that order, returning the structured error dict of the
first failing check without any adapter call; otherwise call
`hmc_activate_discrete` and wrap its boolean result. -/
def handle_activate_discrete (ok : Bool) (params : PyDict) :
    List AdapterCall × PyDict :=
  let panel := pyGet params "panel"
  let motor_index := pyGet params "motor_index"
  let intensity := pyGetD params "intensity" (PyVal.int 100)
  let duration_ms := pyGetD params "duration_ms" (PyVal.int 500)
  if panel ∉ [PyVal.str "front", PyVal.str "back"] then
    ([], err_dict "Panel must be 'front' or 'back'")
  else if int_in_range motor_index 0 19 = false then
    ([], err_dict "Motor index must be an integer between 0 and 19")
  else if int_in_range intensity 0 100 = false then
    ([], err_dict "Intensity must be an integer between 0 and 100")
  else if pos_int duration_ms = false then
    ([], err_dict "Duration must be a positive integer")
  else
    let r := hmc_activate_discrete ok panel motor_index intensity duration_ms
    if r.2 then
      (r.1, [("success", PyVal.bool true), ("panel", panel),
             ("motor_index", motor_index), ("intensity", intensity),
             ("duration_ms", duration_ms)])
    else (r.1, err_dict "Failed to activate motor")

/-- `HapticsServer.handle_activate_glove_motor` (lines 680-737): validate
glove, motor index (integer 0-5), intensity and duration, then call
`activate_glove_motor` from `haptics_gloves.py`. -/
def handle_activate_glove_motor (subOk : Bool) (params : PyDict) :
    List AdapterCall × PyDict :=
  let glove := pyGet params "glove"
  let motor_index := pyGet params "motor_index"
  let intensity := pyGetD params "intensity" (PyVal.int 100)
  let duration_ms := pyGetD params "duration_ms" (PyVal.int 500)
  if glove ∉ [PyVal.str "left", PyVal.str "right"] then
    ([], err_dict "Glove must be 'left' or 'right'")
  else if int_in_range motor_index 0 5 = false then
    ([], err_dict "Motor index must be an integer between 0 and 5")
  else if int_in_range intensity 0 100 = false then
    ([], err_dict "Intensity must be an integer between 0 and 100")
  else if pos_int duration_ms = false then
    ([], err_dict "Duration must be a positive integer")
  else
    let r := activate_glove_motor subOk (pyStr glove) motor_index intensity duration_ms
    if r.2 then
      (r.1, [("success", PyVal.bool true), ("glove", glove),
             ("motor_index", motor_index), ("intensity", intensity),
             ("duration_ms", duration_ms)])
    else (r.1, err_dict "Failed to activate glove motor")

/-- The success dict `handle_shutdown` sends before starting the shutdown
(the raw `force` parameter value is echoed back). -/
def shutdown_result (params : PyDict) : PyDict :=
  [("success", PyVal.bool true),
   ("message", PyVal.str "Server is shutting down"),
   ("force", pyGetD params "force" (PyVal.bool false))]

/-- `HapticsServer.initiate_shutdown` (lines 1340-1355): with a truthy
`force` it schedules `os._exit(0)` on the loop (immediate process
termination) and changes no state; otherwise it only flips the global
`running` flag to `False`. -/
def initiate_shutdown (s : ServerState) (force : Bool) : ServerState × List Action :=
  if force then (s, [Action.scheduleExit])
  else ({ s with running := false }, [])

/-- `HapticsServer.handle_shutdown` (lines 1315-1338): read `force`
(default `False`), await `send_response` with the success dict, then call
`initiate_shutdown`, and return `None` so `process_command` sends no second
response. -/
def handle_shutdown (sendOk : Bool) (s : ServerState) (params : PyDict)
    (clientId commandId : String) : Option PyDict × ServerState × List Action :=
  let force := truthy (pyGetD params "force" (PyVal.bool false))
  let r1 := send_response sendOk s (shutdown_result params) clientId commandId
  let r2 := initiate_shutdown r1.1 force
  (Option.none, r2.1, r1.2 ++ r2.2)

/-- Modelled from the spec: `haptics_motor_control.cleanup` (imported as
`hmc_cleanup`) is not under `src/`. Its three sibling helper modules in
`src/` each guard their cleanup with a module-level `cleanup_done` flag,
null the shared `player.ws` handle and call `player.destroy()` once, and the
spec says each collaborator cleanup runs once and releases the Device
Session Adapter; this models the same shape. (The theorems below that count
adapter releases do not depend on this module alone: the three cleanups
embedded from `src/` already release more than once.) -/
def hmc_cleanup (s : ServerState) : ServerState × List Action :=
  if s.hmcCleanupDone then (s, [])
  else ({ s with
            playerWsOpen := false
            hmcCleanupDone := true
            destroyCount := s.destroyCount + 1 },
        [Action.adapter AdapterCall.destroy])

/-- `haptics_gloves.cleanup` (src/haptics_gloves.py lines 61-93): skip when
the module flag `cleanup_done` is already set; otherwise null and close
`player.ws`, call `player.destroy()`, set the flag. All exceptions are
caught inside. -/
def gloves_cleanup (s : ServerState) : ServerState × List Action :=
  if s.glovesCleanupDone then (s, [])
  else ({ s with
            playerWsOpen := false
            glovesCleanupDone := true
            destroyCount := s.destroyCount + 1 },
        [Action.adapter AdapterCall.destroy])

/-- `haptics_pattern_player.cleanup` (src/haptics_pattern_player.py lines
52-80): join the receiver thread and call `player.destroy()`. This cleanup
has no `cleanup_done` guard, so every invocation releases the adapter
again. Exceptions are caught inside. -/
def pattern_player_cleanup (s : ServerState) : ServerState × List Action :=
  ({ s with destroyCount := s.destroyCount + 1 },
   [Action.adapter AdapterCall.destroy])

/-- `array_example.cleanup` (src/array_example.py lines 216-253): same shape
as the gloves cleanup, guarded by its own module flag. -/
def array_example_cleanup (s : ServerState) : ServerState × List Action :=
  if s.arrayCleanupDone then (s, [])
  else ({ s with
            playerWsOpen := false
            arrayCleanupDone := true
            destroyCount := s.destroyCount + 1 },
        [Action.adapter AdapterCall.destroy])

/-- `HapticsServer.cleanup_haptics` (lines 563-591): call the four module
cleanups in order, each wrapped in its own try/except. -/
def cleanup_haptics (s : ServerState) : ServerState × List Action :=
  let r1 := hmc_cleanup s
  let r2 := gloves_cleanup r1.1
  let r3 := pattern_player_cleanup r2.1
  let r4 := array_example_cleanup r3.1
  (r4.1, r1.2 ++ r2.2 ++ r3.2 ++ r4.2)

/-- `HapticsServer.stop` (lines 536-561): return at once when the global
`cleanup_done` flag is set; otherwise close both sockets, run
`cleanup_haptics` (its errors caught), and set `cleanup_done`. -/
def stop (s : ServerState) : ServerState × List Action :=
  if s.cleanupDone then (s, [])
  else
    let s1 := { s with serverSocketOpen := false, discoverySocketOpen := false }
    let r := cleanup_haptics s1
    ({ r.1 with cleanupDone := true }, r.2)

/-- One step of a vest pattern: a 5x4 intensity matrix per panel
(`array_example.py`). -/
structure PatternStep where
  front : List (List Int)
  back : List (List Int)
deriving DecidableEq, Repr

/-- The motor activations `array_example.activate_motor_array` issues for one
panel: row-major over the 5x4 grid, one `activate_discrete` call (through the
`haptics_motor_control` boundary) per motor whose intensity is positive. -/
def panel_calls (panel : String) (mat : List (List Int)) (durationMs : Int) :
    List AdapterCall :=
  ((List.range 5).map (fun row =>
    (List.range 4).filterMap (fun col =>
      let intensity := (mat.getD row []).getD col 0
      if 0 < intensity then
        some (AdapterCall.motorControlDiscrete (PyVal.str panel)
          (PyVal.int (Int.ofNat (row * 4 + col))) (PyVal.int intensity)
          (PyVal.int durationMs))
      else Option.none))).flatten

/-- `array_example.activate_motor_array` (lines 265-297): front panel rows,
then back panel rows. -/
def activate_motor_array (stepP : PatternStep) (durationMs : Int) :
    List AdapterCall :=
  panel_calls "front" stepP.front durationMs ++ panel_calls "back" stepP.back durationMs

/-- A row of four zero intensities, as written throughout the pattern
literals of `array_example.py`. -/
def z4 : List Int := [0, 0, 0, 0]

/-- `array_example.WAVE_PATTERN`: five steps, the active row moving from top
to bottom, front at 100 and back at 50. -/
def WAVE_PATTERN : List PatternStep :=
  [ ⟨[[100, 100, 100, 100], z4, z4, z4, z4], [[50, 50, 50, 50], z4, z4, z4, z4]⟩,
    ⟨[z4, [100, 100, 100, 100], z4, z4, z4], [z4, [50, 50, 50, 50], z4, z4, z4]⟩,
    ⟨[z4, z4, [100, 100, 100, 100], z4, z4], [z4, z4, [50, 50, 50, 50], z4, z4]⟩,
    ⟨[z4, z4, z4, [100, 100, 100, 100], z4], [z4, z4, z4, [50, 50, 50, 50], z4]⟩,
    ⟨[z4, z4, z4, z4, [100, 100, 100, 100]], [z4, z4, z4, z4, [50, 50, 50, 50]]⟩ ]

/-- A row of four full intensities. -/
def f4 : List Int := [100, 100, 100, 100]

/-- A checkerboard row. -/
def c4 : List Int := [100, 0, 100, 0]

/-- `array_example.ALTERNATING_PATTERN`: all front, all back, front
checkerboard, back checkerboard. -/
def ALTERNATING_PATTERN : List PatternStep :=
  [ ⟨[f4, f4, f4, f4, f4], [z4, z4, z4, z4, z4]⟩,
    ⟨[z4, z4, z4, z4, z4], [f4, f4, f4, f4, f4]⟩,
    ⟨[c4, c4, c4, c4, c4], [z4, z4, z4, z4, z4]⟩,
    ⟨[z4, z4, z4, z4, z4], [c4, c4, c4, c4, c4]⟩ ]

/-- How a playback task leaves its step loop: normally (the code then sends
`pattern_complete`) or through an exception (the `except` clause then sends
`pattern_error`). -/
inductive TaskEvent where
  | patternComplete
  | patternError (msg : String)
deriving DecidableEq, Repr

/-- The step loop shared by `_play_wave_pattern_async`,
`_play_alternating_pattern_async` and `_play_custom_pattern_async`
(lines 903-937, 957-991, 1028-1065): before each step the global `running`
flag is read (`flag i` is the value the read before step `i` returns; a
`false` read executes `break`); a step that raises (adapter-layer exception,
abstracted as `failAt i = some msg`) aborts the loop into the `except`
clause; otherwise the step activates its motor array and the loop sleeps.
Leaving the loop by `break` and finishing all steps are indistinguishable
afterwards: both fall through to the `pattern_complete` notification. -/
def play_steps (flag : Nat → Bool) (failAt : Nat → Option String) :
    Nat → List PatternStep → Int → List AdapterCall × TaskEvent
  | _, [], _ => ([], TaskEvent.patternComplete)
  | i, p :: rest, dur =>
      if flag i then
        match failAt i with
        | some e => ([], TaskEvent.patternError e)
        | Option.none =>
            let r := play_steps flag failAt (i + 1) rest dur
            (activate_motor_array p dur ++ r.1, r.2)
      else ([], TaskEvent.patternComplete)

/-- `HapticsServer._send_event` (lines 801-837): with a target client, the
recipient set is `{target}` when the target is registered for the event type
and empty otherwise; with no target, every registered subscriber. Each
recipient whose id resolves in `current_clients` is sent the event packet. -/
def send_event (s : ServerState) (eventType : String) (data : PyDict)
    (targetClientId : Option String) : List Action :=
  let subs := (lookupA s.eventHandlers eventType).getD []
  let clients : List String :=
    match targetClientId with
    | Option.none => subs
    | some t => if t ∈ subs then [t] else []
  clients.filterMap (fun cid =>
    (lookupA s.clients cid).map (fun addr =>
      Action.send addr (Packet.event eventType data)))

/-- `HapticsServer._play_wave_pattern_async` (lines 903-937): run the wave
steps at 500 ms each, then notify `pattern_complete` (or `pattern_error` if
a step raised) with the originating client as target. -/
def play_wave_pattern_async (flag : Nat → Bool) (failAt : Nat → Option String)
    (clientId commandId : String) (s : ServerState) :
    List AdapterCall × List Action :=
  let r := play_steps flag failAt 0 WAVE_PATTERN 500
  match r.2 with
  | TaskEvent.patternComplete =>
      (r.1, send_event s "pattern_complete"
        [("pattern_type", PyVal.str "wave"), ("command_id", PyVal.str commandId)]
        (some clientId))
  | TaskEvent.patternError e =>
      (r.1, send_event s "pattern_error"
        [("pattern_type", PyVal.str "wave"), ("command_id", PyVal.str commandId),
         ("error", PyVal.str e)]
        (some clientId))

/-- `HapticsServer._play_alternating_pattern_async` (lines 957-991): same
shape at 1000 ms per step. -/
def play_alternating_pattern_async (flag : Nat → Bool)
    (failAt : Nat → Option String) (clientId commandId : String)
    (s : ServerState) : List AdapterCall × List Action :=
  let r := play_steps flag failAt 0 ALTERNATING_PATTERN 1000
  match r.2 with
  | TaskEvent.patternComplete =>
      (r.1, send_event s "pattern_complete"
        [("pattern_type", PyVal.str "alternating"),
         ("command_id", PyVal.str commandId)]
        (some clientId))
  | TaskEvent.patternError e =>
      (r.1, send_event s "pattern_error"
        [("pattern_type", PyVal.str "alternating"),
         ("command_id", PyVal.str commandId), ("error", PyVal.str e)]
        (some clientId))

/-- `HapticsServer._play_custom_pattern_async` (lines 1028-1065): same loop
over a client-supplied step list and step duration; the completion data also
carries the step count. -/
def play_custom_pattern_async (flag : Nat → Bool)
    (failAt : Nat → Option String) (pattern : List PatternStep)
    (durationMs : Int) (clientId commandId : String) (s : ServerState) :
    List AdapterCall × List Action :=
  let r := play_steps flag failAt 0 pattern durationMs
  match r.2 with
  | TaskEvent.patternComplete =>
      (r.1, send_event s "pattern_complete"
        [("pattern_type", PyVal.str "custom"), ("command_id", PyVal.str commandId),
         ("steps", PyVal.int (Int.ofNat pattern.length))]
        (some clientId))
  | TaskEvent.patternError e =>
      (r.1, send_event s "pattern_error"
        [("pattern_type", PyVal.str "custom"), ("command_id", PyVal.str commandId),
         ("error", PyVal.str e)]
        (some clientId))

/-! Helper lemmas about the association-list dictionaries. -/

theorem lookupA_eraseA_self {α : Type} (l : List (String × α)) (k : String) :
    lookupA (eraseA l k) k = Option.none := by
  induction l with
  | nil => rfl
  | cons h t ih =>
      obtain ⟨k0, v0⟩ := h
      by_cases hk : k0 = k
      · simpa [eraseA, hk] using ih
      · simp [eraseA, hk, lookupA, ih]

theorem eraseA_insertA {α : Type} (l : List (String × α)) (k : String) (v : α) :
    eraseA (insertA l k v) k = eraseA l k := by
  induction l with
  | nil => simp [insertA, eraseA]
  | cons h t ih =>
      obtain ⟨k0, v0⟩ := h
      by_cases hk : k0 = k
      · simp [insertA, eraseA, hk]
      · simp [insertA, eraseA, hk, ih]

theorem length_eraseA_le {α : Type} (l : List (String × α)) (k : String) :
    (eraseA l k).length ≤ l.length := by
  induction l with
  | nil => simp [eraseA]
  | cons h t ih =>
      obtain ⟨k0, v0⟩ := h
      by_cases hk : k0 = k
      · simp only [eraseA, hk, if_pos rfl]
        exact Nat.le_succ_of_le ih
      · simpa [eraseA, hk] using ih

theorem lookupA_append_self {α : Type} (l : List (String × α)) (k : String)
    (v : α) (h : lookupA l k = Option.none) :
    lookupA (l ++ [(k, v)]) k = some v := by
  induction l with
  | nil => simp [lookupA]
  | cons h0 t ih =>
      obtain ⟨k0, v0⟩ := h0
      by_cases hk : k0 = k
      · simp [lookupA, hk] at h
      · simp only [lookupA, hk, if_neg hk, List.cons_append] at h ⊢
        exact ih h

/-- `send_response` never touches the client registry. -/
theorem send_response_clients (sendOk : Bool) (s : ServerState)
    (result : PyDict) (clientId commandId : String) :
    (send_response sendOk s result clientId commandId).1.clients = s.clients := by
  unfold send_response
  cases lookupA s.clients clientId <;> cases sendOk <;> simp

/-- When the loop raises no exception, the shared playback step loop always
falls through to the completion branch, whatever the run flag does. -/
theorem play_steps_complete_of_nofail (flag : Nat → Bool)
    (failAt : Nat → Option String) (h : ∀ j, failAt j = Option.none) :
    ∀ (i : Nat) (steps : List PatternStep) (dur : Int),
      (play_steps flag failAt i steps dur).2 = TaskEvent.patternComplete := by
  intro i steps
  induction steps generalizing i with
  | nil => intro dur; rfl
  | cons p rest ih =>
      intro dur
      by_cases hf : flag i
      · simp [play_steps, hf, h i, ih (i + 1)]
      · simp [play_steps, hf]

/-! ## C1 -/

/-- C1 (code bug): the body of `handle_register_event_callback` is corrupted.
A request whose params carry a non-empty `event_type` raises `NameError`
(the code evaluates the never-assigned name `duration_ms`), so the client is
never added to the subscription set and the exception escapes the handler;
a request with `event_type` missing returns a structured error whose message
talks about intensity, not about the missing `event_type` parameter. -/
theorem register_event_callback_is_broken :
    handle_register_event_callback [("event_type", PyVal.str "pattern_complete")]
      = Except.error (PyError.nameError "duration_ms")
    ∧ handle_register_event_callback []
      = Except.ok [("success", PyVal.bool false),
          ("error", PyVal.str "Intensity must be an integer between 0 and 100")] := by
  constructor <;> rfl

/-! ## C4 -/

/-- C4: whenever `send_response` or `send_error_response` actually sends a
packet, the command id is no longer in the correlation tracker afterwards;
and processing one `ping` command end to end (register client, insert
correlation entry, respond) never leaves the tracker larger than before, so
steady-state answered ping traffic does not grow it. -/
theorem sent_response_removes_tracker_entry (sendOk : Bool) (s : ServerState)
    (result : PyDict) (error : String) (clientId commandId : String)
    (addr : Addr) (params : PyDict) (now : Nat) :
    ((send_response sendOk s result clientId commandId).2 ≠ [] →
      lookupA (send_response sendOk s result clientId commandId).1.tracker
        commandId = Option.none)
    ∧ ((send_error_response sendOk s error clientId commandId).2 ≠ [] →
      lookupA (send_error_response sendOk s error clientId commandId).1.tracker
        commandId = Option.none)
    ∧ (process_ping_command true s addr params commandId clientId now).1.tracker.length
        ≤ s.tracker.length := by
  refine ⟨?_, ?_, ?_⟩
  · unfold send_response
    cases lookupA s.clients clientId <;> cases sendOk <;>
      simp [lookupA_eraseA_self]
  · unfold send_error_response
    cases lookupA s.clients clientId <;> cases sendOk <;>
      simp [lookupA_eraseA_self]
  · unfold process_ping_command send_response
    cases h : lookupA s.clients clientId with
    | some a =>
        simp [h, eraseA_insertA, length_eraseA_le]
    | none =>
        simp [h, lookupA_append_self s.clients clientId addr h,
              eraseA_insertA, length_eraseA_le]

/-- C4 witness: a concrete answered ping. The response goes out, and its
command id is gone from the tracker. -/
theorem sent_response_removes_tracker_entry_witness :
    ((send_response true
        { freshState with
            clients := [("A", ("10.0.0.2", 4000))]
            tracker := [("m1", ⟨"A", PyVal.str "ping", 7⟩)] }
        [("success", PyVal.bool true)] "A" "m1").2 ≠ [])
    ∧ lookupA (send_response true
        { freshState with
            clients := [("A", ("10.0.0.2", 4000))]
            tracker := [("m1", ⟨"A", PyVal.str "ping", 7⟩)] }
        [("success", PyVal.bool true)] "A" "m1").1.tracker "m1" = Option.none :=
  ⟨by decide,
   (sent_response_removes_tracker_entry true
      { freshState with
          clients := [("A", ("10.0.0.2", 4000))]
          tracker := [("m1", ⟨"A", PyVal.str "ping", 7⟩)] }
      [("success", PyVal.bool true)] "err" "A" "m1" ("10.0.0.2", 4000) [] 7).1
     (by decide)⟩

/-! ## C5 -/

/-- C5 counterexample: a client id already registered under one address is
NOT re-pointed at the source address of a later command. After processing a
ping from client `C` arriving from `("h2", 2)`, the registry still maps `C`
to the old `("h1", 1)`: registration is skipped for known ids. -/
theorem client_address_not_updated :
    lookupA (process_ping_command true
        { freshState with clients := [("C", ("h1", 1))] }
        ("h2", 2) [] "m1" "C" 0).1.clients "C" = some ("h1", 1)
    ∧ (("h1", 1) : Addr) ≠ ("h2", 2) := by
  constructor
  · rfl
  · decide

/-- C5 as amended: client registration is first-write-wins, not
last-write-wins. After dispatch the registry maps the command client id to
its previously stored address when one exists, and to the packet source
address only for a fresh id. -/
theorem client_registry_first_write_wins (sendOk : Bool) (s : ServerState)
    (addr : Addr) (params : PyDict) (commandId clientId : String) (now : Nat) :
    lookupA (process_ping_command sendOk s addr params commandId clientId
        now).1.clients clientId
      = some ((lookupA s.clients clientId).getD addr) := by
  unfold process_ping_command
  cases h : lookupA s.clients clientId with
  | none =>
      simp only [h, Option.isSome_none, Bool.false_eq_true, if_neg]
      rw [send_response_clients]
      simp [lookupA_append_self s.clients clientId addr h]
  | some a =>
      simp only [h, Option.isSome_some, if_pos rfl]
      rw [send_response_clients]
      simp [h]

/-! ## C9 -/

/-- C9: when the target client id is absent from the registry at
response-send time, both response paths return silently: no packet is sent,
the state (in particular the correlation tracker, which nothing else ever
prunes) is untouched, so the command id entry stays behind. -/
theorem absent_client_response_dropped (sendOk : Bool) (s : ServerState)
    (result : PyDict) (error : String) (clientId commandId : String)
    (h : lookupA s.clients clientId = Option.none) :
    send_response sendOk s result clientId commandId = (s, [])
    ∧ send_error_response sendOk s error clientId commandId = (s, []) := by
  constructor
  · unfold send_response; rw [h]
  · unfold send_error_response; rw [h]

/-- C9 witness: a pruned client with a live tracker entry; the send is
dropped and the entry survives. -/
theorem absent_client_response_dropped_witness :
    send_response true
      { freshState with tracker := [("m9", ⟨"gone", PyVal.str "ping", 3⟩)] }
      [("success", PyVal.bool true)] "gone" "m9"
    = ({ freshState with tracker := [("m9", ⟨"gone", PyVal.str "ping", 3⟩)] }, []) :=
  (absent_client_response_dropped true _ [("success", PyVal.bool true)] "e"
    "gone" "m9" (by decide)).1

/-! ## C2 -/

/-- C2 counterexample: the run flag reads `true` before step 0 and `false`
before step 1 of the wave pattern (an abort with four steps left), yet the
task still emits the `pattern_complete` event — the `break` only leaves the
step loop, after which the completion notification runs unconditionally.
The client that requested the pattern is subscribed, so the event really
goes out on the wire. -/
theorem wave_abort_still_sends_pattern_complete :
    play_wave_pattern_async (fun i => i == 0) (fun _ => Option.none) "A" "m1"
      { freshState with
          clients := [("A", ("hA", 1))]
          eventHandlers := [("pattern_complete", ["A"])] }
    = ([AdapterCall.motorControlDiscrete (PyVal.str "front") (PyVal.int 0)
          (PyVal.int 100) (PyVal.int 500),
        AdapterCall.motorControlDiscrete (PyVal.str "front") (PyVal.int 1)
          (PyVal.int 100) (PyVal.int 500),
        AdapterCall.motorControlDiscrete (PyVal.str "front") (PyVal.int 2)
          (PyVal.int 100) (PyVal.int 500),
        AdapterCall.motorControlDiscrete (PyVal.str "front") (PyVal.int 3)
          (PyVal.int 100) (PyVal.int 500),
        AdapterCall.motorControlDiscrete (PyVal.str "back") (PyVal.int 0)
          (PyVal.int 50) (PyVal.int 500),
        AdapterCall.motorControlDiscrete (PyVal.str "back") (PyVal.int 1)
          (PyVal.int 50) (PyVal.int 500),
        AdapterCall.motorControlDiscrete (PyVal.str "back") (PyVal.int 2)
          (PyVal.int 50) (PyVal.int 500),
        AdapterCall.motorControlDiscrete (PyVal.str "back") (PyVal.int 3)
          (PyVal.int 50) (PyVal.int 500)],
       [Action.send ("hA", 1) (Packet.event "pattern_complete"
          [("pattern_type", PyVal.str "wave"), ("command_id", PyVal.str "m1")])]) := by
  rfl

/-- C2 as amended: when the run flag flips false between steps, the playback
tasks (wave, alternating, custom) do stop issuing further steps, but they do
NOT exit without a terminal event: any run in which no step raises ends with
the `pattern_complete` notification, aborted or not. -/
theorem playback_abort_still_emits_complete (flag : Nat → Bool)
    (failAt : Nat → Option String) (h : ∀ j, failAt j = Option.none)
    (pattern : List PatternStep) (durationMs : Int)
    (clientId commandId : String) (s : ServerState) :
    (play_wave_pattern_async flag failAt clientId commandId s).2
      = send_event s "pattern_complete"
          [("pattern_type", PyVal.str "wave"), ("command_id", PyVal.str commandId)]
          (some clientId)
    ∧ (play_alternating_pattern_async flag failAt clientId commandId s).2
      = send_event s "pattern_complete"
          [("pattern_type", PyVal.str "alternating"),
           ("command_id", PyVal.str commandId)]
          (some clientId)
    ∧ (play_custom_pattern_async flag failAt pattern durationMs clientId
        commandId s).2
      = send_event s "pattern_complete"
          [("pattern_type", PyVal.str "custom"), ("command_id", PyVal.str commandId),
           ("steps", PyVal.int (Int.ofNat pattern.length))]
          (some clientId) := by
  refine ⟨?_, ?_, ?_⟩ <;>
    simp [play_wave_pattern_async, play_alternating_pattern_async,
      play_custom_pattern_async, play_steps_complete_of_nofail flag failAt h]

/-- C2 witness for the amended theorem: the aborted wave run of the
counterexample state, instantiated through the theorem. -/
theorem playback_abort_still_emits_complete_witness :
    (play_wave_pattern_async (fun i => i == 0) (fun _ => Option.none)
        "A" "m1" freshState).2
      = send_event freshState "pattern_complete"
          [("pattern_type", PyVal.str "wave"), ("command_id", PyVal.str "m1")]
          (some "A") :=
  (playback_abort_still_emits_complete (fun i => i == 0) (fun _ => Option.none)
    (fun _ => rfl) [] 500 "A" "m1" freshState).1

/-! ## C3 -/

/-- C3 counterexample: client `A` originates a wave playback that runs to
completion; client `B` is globally subscribed to `pattern_complete`, and
both ids resolve in the client registry — yet the task sends the terminal
event to nobody: `_send_event` is called with the originating client as the
target, and a target receives the event only when it is itself subscribed,
while subscribers other than the target are skipped entirely. -/
theorem wave_complete_event_delivered_to_nobody :
    (play_wave_pattern_async (fun _ => true) (fun _ => Option.none) "A" "m1"
      { freshState with
          clients := [("A", ("hA", 1)), ("B", ("hB", 2))]
          eventHandlers := [("pattern_complete", ["B"])] }).2 = []
    ∧ lookupA ({ freshState with
          clients := [("A", ("hA", 1)), ("B", ("hB", 2))]
          eventHandlers := [("pattern_complete", ["B"])] } :
            ServerState).eventHandlers "pattern_complete" = some ["B"]
    ∧ lookupA ({ freshState with
          clients := [("A", ("hA", 1)), ("B", ("hB", 2))]
          eventHandlers := [("pattern_complete", ["B"])] } :
            ServerState).clients "A" = some ("hA", 1)
    ∧ lookupA ({ freshState with
          clients := [("A", ("hA", 1)), ("B", ("hB", 2))]
          eventHandlers := [("pattern_complete", ["B"])] } :
            ServerState).clients "B" = some ("hB", 2) := by
  refine ⟨?_, ?_, ?_, ?_⟩ <;> rfl

/-- The delivery policy the amended C3 describes, written from its words for
comparison with the code: one event packet to the originating client alone,
and only when that client is itself subscribed to the event type and
resolves in the client registry; otherwise no packet at all. -/
def event_to_origin (s : ServerState) (eventType : String) (data : PyDict)
    (clientId : String) : List Action :=
  if clientId ∈ (lookupA s.eventHandlers eventType).getD [] then
    match lookupA s.clients clientId with
    | some addr => [Action.send addr (Packet.event eventType data)]
    | Option.none => []
  else []

/-- The code's `_send_event` with a target client realises exactly the
origin-only delivery policy above. -/
theorem send_event_target_eq_event_to_origin (s : ServerState)
    (eventType : String) (data : PyDict) (clientId : String) :
    send_event s eventType data (some clientId)
      = event_to_origin s eventType data clientId := by
  unfold send_event event_to_origin
  by_cases hc : clientId ∈ (lookupA s.eventHandlers eventType).getD []
  · simp only [hc, if_true]
    cases h : lookupA s.clients clientId <;>
      simp [List.filterMap_cons, h]
  · simp [hc]

/-- C3 as amended: every playback task (wave, alternating, custom), on every
run and at every abort point, emits exactly one terminal notification —
`pattern_complete` when no step raised, `pattern_error` when one did — and
it is delivered at most to the originating client: to it alone when that
client is subscribed to the event type and registered, and to nobody
otherwise. Globally subscribed other clients never receive it. -/
theorem terminal_event_recipients (flag : Nat → Bool)
    (failAt : Nat → Option String) (pattern : List PatternStep)
    (durationMs : Int) (s : ServerState) (clientId commandId : String) :
    ((∀ j, failAt j = Option.none) →
      (play_wave_pattern_async flag failAt clientId commandId s).2
        = event_to_origin s "pattern_complete"
            [("pattern_type", PyVal.str "wave"),
             ("command_id", PyVal.str commandId)] clientId
      ∧ (play_alternating_pattern_async flag failAt clientId commandId s).2
        = event_to_origin s "pattern_complete"
            [("pattern_type", PyVal.str "alternating"),
             ("command_id", PyVal.str commandId)] clientId
      ∧ (play_custom_pattern_async flag failAt pattern durationMs clientId
            commandId s).2
        = event_to_origin s "pattern_complete"
            [("pattern_type", PyVal.str "custom"),
             ("command_id", PyVal.str commandId),
             ("steps", PyVal.int (Int.ofNat pattern.length))] clientId)
    ∧ (∀ e, (play_steps flag failAt 0 WAVE_PATTERN 500).2
          = TaskEvent.patternError e →
        (play_wave_pattern_async flag failAt clientId commandId s).2
          = event_to_origin s "pattern_error"
              [("pattern_type", PyVal.str "wave"),
               ("command_id", PyVal.str commandId),
               ("error", PyVal.str e)] clientId)
    ∧ (∀ e, (play_steps flag failAt 0 ALTERNATING_PATTERN 1000).2
          = TaskEvent.patternError e →
        (play_alternating_pattern_async flag failAt clientId commandId s).2
          = event_to_origin s "pattern_error"
              [("pattern_type", PyVal.str "alternating"),
               ("command_id", PyVal.str commandId),
               ("error", PyVal.str e)] clientId)
    ∧ (∀ e, (play_steps flag failAt 0 pattern durationMs).2
          = TaskEvent.patternError e →
        (play_custom_pattern_async flag failAt pattern durationMs clientId
            commandId s).2
          = event_to_origin s "pattern_error"
              [("pattern_type", PyVal.str "custom"),
               ("command_id", PyVal.str commandId),
               ("error", PyVal.str e)] clientId) := by
  refine ⟨?_, ?_, ?_, ?_⟩
  · intro h
    refine ⟨?_, ?_, ?_⟩ <;>
      simp [play_wave_pattern_async, play_alternating_pattern_async,
        play_custom_pattern_async, play_steps_complete_of_nofail flag failAt h,
        send_event_target_eq_event_to_origin]
  · intro e he
    simp [play_wave_pattern_async, he, send_event_target_eq_event_to_origin]
  · intro e he
    simp [play_alternating_pattern_async, he,
      send_event_target_eq_event_to_origin]
  · intro e he
    simp [play_custom_pattern_async, he, send_event_target_eq_event_to_origin]

/-- C3 witness for the amended theorem: a completed wave run delivers the
single `pattern_complete` notification per the origin-only policy, and a
wave run whose first step raises delivers the single `pattern_error`
notification the same way. -/
theorem terminal_event_recipients_witness :
    (play_wave_pattern_async (fun _ => true) (fun _ => Option.none)
        "A" "m1" freshState).2
      = event_to_origin freshState "pattern_complete"
          [("pattern_type", PyVal.str "wave"), ("command_id", PyVal.str "m1")] "A"
    ∧ (play_wave_pattern_async (fun _ => true) (fun _ => some "boom")
        "A" "m1" freshState).2
      = event_to_origin freshState "pattern_error"
          [("pattern_type", PyVal.str "wave"), ("command_id", PyVal.str "m1"),
           ("error", PyVal.str "boom")] "A" :=
  ⟨((terminal_event_recipients (fun _ => true) (fun _ => Option.none) [] 500
      freshState "A" "m1").1 (fun _ => rfl)).1,
   (terminal_event_recipients (fun _ => true) (fun _ => some "boom") [] 500
      freshState "A" "m1").2.1 "boom" (by decide)⟩

/-! ## C6 -/

/-- C6: for a shutdown command from a registered client, the handler returns
`None` (so the dispatcher sends no second response), its effect trace starts
with the success response send and only after it the shutdown action; with a
falsy `force` the only state change beyond the response bookkeeping is
`running := false` (sockets, adapter counters, registries untouched), and
with a truthy `force` the state is untouched apart from that bookkeeping and
an immediate process-exit is scheduled. -/
theorem shutdown_responds_before_shutting_down (s : ServerState)
    (params : PyDict) (clientId commandId : String) (addr : Addr)
    (h : lookupA s.clients clientId = some addr) :
    (handle_shutdown true s params clientId commandId).1 = Option.none
    ∧ (handle_shutdown true s params clientId commandId).2.2
      = Action.send addr (Packet.response commandId (shutdown_result params))
        :: (if truthy (pyGetD params "force" (PyVal.bool false))
            then [Action.scheduleExit] else [])
    ∧ (handle_shutdown true s params clientId commandId).2.1
      = { s with tracker := eraseA s.tracker commandId,
                 running := if truthy (pyGetD params "force" (PyVal.bool false))
                            then s.running else false } := by
  unfold handle_shutdown initiate_shutdown send_response
  rw [h]
  cases hf : truthy (pyGetD params "force" (PyVal.bool false)) <;> simp

/-- C6 witness: a graceful shutdown (no `force` param) from a registered
client. -/
theorem shutdown_responds_before_shutting_down_witness :
    (handle_shutdown true { freshState with clients := [("A", ("hA", 1))] }
        [] "A" "m1").1 = Option.none
    ∧ (handle_shutdown true { freshState with clients := [("A", ("hA", 1))] }
        [] "A" "m1").2.2
      = Action.send ("hA", 1) (Packet.response "m1" (shutdown_result []))
        :: (if truthy (pyGetD [] "force" (PyVal.bool false))
            then [Action.scheduleExit] else [])
    ∧ (handle_shutdown true { freshState with clients := [("A", ("hA", 1))] }
        [] "A" "m1").2.1
      = { ({ freshState with clients := [("A", ("hA", 1))] } : ServerState) with
            tracker := eraseA freshState.tracker "m1",
            running := if truthy (pyGetD [] "force" (PyVal.bool false))
                       then freshState.running else false } :=
  shutdown_responds_before_shutting_down
    { freshState with clients := [("A", ("hA", 1))] } [] "A" "m1" ("hA", 1)
    (by decide)

/-! ## C7 -/

/-- C7 counterexample: one single completed invocation of the shutdown
sequence on a fresh server already calls `player.destroy()` four times (once
inside each helper-module cleanup that `cleanup_haptics` invokes; three of
those cleanups are embedded from `src/`), so the Device Session Adapter is
not released at most once per process lifetime. -/
theorem first_shutdown_releases_adapter_repeatedly :
    (stop freshState).1.destroyCount = 4
    ∧ ¬ ((stop freshState).1.destroyCount ≤ 1) := by
  refine ⟨rfl, by decide⟩

/-- After any invocation, the global `cleanup_done` flag is set. -/
theorem stop_sets_cleanupDone (s : ServerState) :
    (stop s).1.cleanupDone = true := by
  unfold stop
  by_cases h : s.cleanupDone
  · simp [h]
  · simp [h]

/-- A state whose `cleanup_done` flag is set makes `stop` a no-op. -/
theorem stop_of_cleanupDone (t : ServerState) (h : t.cleanupDone = true) :
    stop t = (t, []) := by
  unfold stop
  simp [h]

/-- C7 as amended: the second invocation of the shutdown sequence after a
completed first one is a genuine no-op — no further adapter release, no
socket action, no state change, no error — because the first invocation set
the global `cleanup_done` guard. (The at-most-once-per-process part of the
claim fails: see the counterexample, the first invocation alone releases the
adapter once per helper module.) -/
theorem stop_twice_is_noop (s : ServerState) :
    stop (stop s).1 = ((stop s).1, []) :=
  stop_of_cleanupDone (stop s).1 (stop_sets_cleanupDone s)

/-! ## C8 -/

/-- C8: an `activate_discrete` request whose `motor_index` fails the
integer-range check 0..19, and an `activate_glove_motor` request whose
`motor_index` fails the check 0..5, are rejected with a `success: false`
dict and produce no adapter call at all; when the panel (resp. glove)
parameter is valid, the error message is exactly the documented one. -/
theorem invalid_motor_index_rejected (ok : Bool) (params : PyDict) :
    (int_in_range (pyGet params "motor_index") 0 19 = false →
      (handle_activate_discrete ok params).1 = []
      ∧ lookupA (handle_activate_discrete ok params).2 "success"
          = some (PyVal.bool false)
      ∧ (pyGet params "panel" ∈ [PyVal.str "front", PyVal.str "back"] →
          (handle_activate_discrete ok params).2
            = err_dict "Motor index must be an integer between 0 and 19"))
    ∧ (int_in_range (pyGet params "motor_index") 0 5 = false →
      (handle_activate_glove_motor ok params).1 = []
      ∧ lookupA (handle_activate_glove_motor ok params).2 "success"
          = some (PyVal.bool false)
      ∧ (pyGet params "glove" ∈ [PyVal.str "left", PyVal.str "right"] →
          (handle_activate_glove_motor ok params).2
            = err_dict "Motor index must be an integer between 0 and 5")) := by
  constructor
  · intro h
    unfold handle_activate_discrete
    by_cases hp : pyGet params "panel" ∈ [PyVal.str "front", PyVal.str "back"]
    · simp [hp, h, err_dict, lookupA]
    · simp [hp, err_dict, lookupA]
  · intro h
    unfold handle_activate_glove_motor
    by_cases hp : pyGet params "glove" ∈ [PyVal.str "left", PyVal.str "right"]
    · simp [hp, h, err_dict, lookupA]
    · simp [hp, err_dict, lookupA]

/-- C8 witness: the spec scenario — `activate_discrete` with panel `front`
and `motor_index` 25 — and its glove counterpart with `motor_index` 7. -/
theorem invalid_motor_index_rejected_witness :
    ((handle_activate_discrete true
        [("panel", PyVal.str "front"), ("motor_index", PyVal.int 25),
         ("intensity", PyVal.int 100), ("duration_ms", PyVal.int 500)]).1 = []
      ∧ (handle_activate_discrete true
          [("panel", PyVal.str "front"), ("motor_index", PyVal.int 25),
           ("intensity", PyVal.int 100), ("duration_ms", PyVal.int 500)]).2
          = err_dict "Motor index must be an integer between 0 and 19")
    ∧ ((handle_activate_glove_motor true
        [("glove", PyVal.str "left"), ("motor_index", PyVal.int 7)]).1 = []
      ∧ (handle_activate_glove_motor true
          [("glove", PyVal.str "left"), ("motor_index", PyVal.int 7)]).2
          = err_dict "Motor index must be an integer between 0 and 5") :=
  ⟨⟨((invalid_motor_index_rejected true
        [("panel", PyVal.str "front"), ("motor_index", PyVal.int 25),
         ("intensity", PyVal.int 100), ("duration_ms", PyVal.int 500)]).1
      (by decide)).1,
    ((invalid_motor_index_rejected true
        [("panel", PyVal.str "front"), ("motor_index", PyVal.int 25),
         ("intensity", PyVal.int 100), ("duration_ms", PyVal.int 500)]).1
      (by decide)).2.2 (by decide)⟩,
   ⟨((invalid_motor_index_rejected true
        [("glove", PyVal.str "left"), ("motor_index", PyVal.int 7)]).2
      (by decide)).1,
    ((invalid_motor_index_rejected true
        [("glove", PyVal.str "left"), ("motor_index", PyVal.int 7)]).2
      (by decide)).2.2 (by decide)⟩⟩

/-! ## C10 -/

/-- C10: the JSON boolean `true` passes the `isinstance(..., int)` range
checks because Python booleans are ints (`True` counts as 1): wherever a
motor index, intensity or duration is required, `true` sails through
validation and reaches the adapter call — for the glove even into the
f-string frame key, which becomes `gloveLeftFrame_motor_True`. -/
theorem bool_true_passes_int_validation :
    (handle_activate_discrete true
        [("panel", PyVal.str "front"), ("motor_index", PyVal.bool true),
         ("intensity", PyVal.int 100), ("duration_ms", PyVal.int 500)]).1
      = [AdapterCall.motorControlDiscrete (PyVal.str "front") (PyVal.bool true)
          (PyVal.int 100) (PyVal.int 500)]
    ∧ (handle_activate_discrete true
        [("panel", PyVal.str "front"), ("motor_index", PyVal.int 5),
         ("intensity", PyVal.bool true), ("duration_ms", PyVal.bool true)]).1
      = [AdapterCall.motorControlDiscrete (PyVal.str "front") (PyVal.int 5)
          (PyVal.bool true) (PyVal.bool true)]
    ∧ (handle_activate_glove_motor true
        [("glove", PyVal.str "left"), ("motor_index", PyVal.bool true),
         ("intensity", PyVal.int 100), ("duration_ms", PyVal.int 500)]).1
      = [AdapterCall.submitDot "gloveLeftFrame_motor_True" "GloveL"
          (PyVal.bool true) (PyVal.int 100) (PyVal.int 500)] := by
  refine ⟨rfl, rfl, ?_⟩
  decide

end UnifiedHapticsApi
